import Mathlib

/-!
# Verification of the llama.cpp DDS transport layer

Shallow embedding, in Lean 4, of the DDS request/response transport of this
repository: the IDL wire-conversion layer (`dds_idl_wrapper.h`), the CDR free
helpers, the UUID v4 generator (`dds_utils.h`), the bridge queue and in-flight
counter (`dds_bridge.cpp`), the transport entity lifecycle
(`dds_transport.cpp`), and the server dispatch loop
(`tools/server/server.cpp`, `process_dds_request`).

Machine integers are modelled as `Int`/`Nat`; the conversions copy 32-bit
floats verbatim without arithmetic, so floats are modelled as exact `Rat`
values.  Stateful code is modelled by explicit state passing; the OS clock and
the inference engine's result queue are modelled as explicit input traces.
-/

namespace LlamaDDS

/-- 32-bit float.  Every operation embedded in this file copies floats
bit-for-bit (no float arithmetic occurs on any verified path), so they are
modelled as exact rationals. -/
abbrev F32 := Rat

/-! ## Native owned types (`dds_types.h`) -/

/-- `llama_dds::ChatMessage` (dds_types.h). -/
structure ChatMessage where
  role : String
  content : String
deriving DecidableEq, Repr

/-- `llama_dds::ChatCompletionRequest` (dds_types.h). -/
structure ChatCompletionRequest where
  request_id : String
  model : String
  messages : List ChatMessage
  temperature : F32 := (7:Rat)/10
  max_tokens : Int := 256
  stream : Bool := false
  top_p : Option F32 := none
  n : Option Int := none
  stop : Option (List String) := none
deriving DecidableEq, Repr

/-- `llama_dds::ChatCompletionResponse` (dds_types.h). -/
structure ChatCompletionResponse where
  request_id : String := ""
  model : String := ""
  content : String := ""
  finish_reason : Option String := none
  is_final : Bool := false
  prompt_tokens : Int := 0
  completion_tokens : Int := 0
deriving DecidableEq, Repr

/-- `llama_dds::ServerStatus` (dds_types.h). -/
structure ServerStatus where
  server_id : String := ""
  slots_idle : Int := 0
  slots_processing : Int := 0
  model_loaded : String := ""
  ready : Bool := false
deriving DecidableEq, Repr

/-! ## IDL wire types, value level (`idl/LlamaDDS.h` as used by
`dds_idl_wrapper.h`)

CDR strings are `char*` (null = absent), modelled as `Option String`;
CDR sequences carry `_maximum`, `_length`, `_buffer`, `_release`, the buffer
being a possibly-null array, modelled as `Option (List α)`. -/

/-- A CDR variable-length sequence: `_maximum`, `_length`, `_buffer`,
`_release`. -/
structure WireSeq (α : Type) where
  maximum : Nat
  length : Nat
  buffer : Option (List α)
  release : Bool
deriving DecidableEq, Repr

/-- The elements the C code iterates over: `_buffer[i]` for `i < _length`.
Defined (matching the source) whenever the buffer holds at least `_length`
elements, which holds for every record built by the `to_llama_*`
converters. -/
def WireSeq.elems {α : Type} (s : WireSeq α) : List α :=
  (s.buffer.getD []).take s.length

/-- Wire `llama_ChatMessage`. -/
structure llama_ChatMessage where
  role : Option String
  content : Option String
deriving DecidableEq, Repr

/-- Wire `llama_ChatCompletionRequest`. -/
structure llama_ChatCompletionRequest where
  request_id : Option String
  model : Option String
  messages : WireSeq llama_ChatMessage
  temperature : F32
  max_tokens : Int
  stream : Bool
  top_p : WireSeq F32
  n : WireSeq Int
  stop : WireSeq (Option String)
deriving DecidableEq, Repr

/-- Wire `llama_ChatCompletionResponse`. -/
structure llama_ChatCompletionResponse where
  request_id : Option String
  model : Option String
  content : Option String
  finish_reason : Option String
  is_final : Bool
  prompt_tokens : Int
  completion_tokens : Int
deriving DecidableEq, Repr

/-! ## Conversions (`dds_idl_wrapper.h`) -/

/-- `to_chat_message` (dds_idl_wrapper.h): null string pointers map to
empty strings. -/
def to_chat_message (msg : llama_ChatMessage) : ChatMessage where
  role := msg.role.getD ""
  content := msg.content.getD ""

/-- `to_llama_chat_message` (dds_idl_wrapper.h): both strings are
heap-duplicated, hence present. -/
def to_llama_chat_message (msg : ChatMessage) : llama_ChatMessage where
  role := some msg.role
  content := some msg.content

/-- `to_request` (dds_idl_wrapper.h): wire record to owned native record.
Optional single-element sequences are read as present exactly when
`_length > 0`; null strings map to `""`. -/
def to_request (req : llama_ChatCompletionRequest) : ChatCompletionRequest where
  request_id := req.request_id.getD ""
  model := req.model.getD ""
  temperature := req.temperature
  max_tokens := req.max_tokens
  stream := req.stream
  messages := req.messages.elems.map to_chat_message
  top_p := if req.top_p.length > 0 then some (req.top_p.elems.headD 0) else none
  n := if req.n.length > 0 then some (req.n.elems.headD 0) else none
  stop :=
    if req.stop.length > 0 then
      some (req.stop.elems.map (fun s => s.getD ""))
    else
      none

/-- `to_llama_request` (dds_idl_wrapper.h): native record to a freshly
allocated wire record; strings heap-duplicated (present), sequences freshly
allocated with `_length = _maximum = size`, absent optionals becoming null
buffers with `_length = 0`. -/
def to_llama_request (req : ChatCompletionRequest) : llama_ChatCompletionRequest where
  request_id := some req.request_id
  model := some req.model
  temperature := req.temperature
  max_tokens := req.max_tokens
  stream := req.stream
  messages :=
    { maximum := req.messages.length
      length := req.messages.length
      buffer := some (req.messages.map to_llama_chat_message)
      release := true }
  top_p :=
    match req.top_p with
    | some v => { maximum := 1, length := 1, buffer := some [v], release := true }
    | none => { maximum := 0, length := 0, buffer := none, release := false }
  n :=
    match req.n with
    | some v => { maximum := 1, length := 1, buffer := some [v], release := true }
    | none => { maximum := 0, length := 0, buffer := none, release := false }
  stop :=
    match req.stop with
    | some l =>
      { maximum := l.length
        length := l.length
        buffer := some (l.map some)
        release := true }
    | none => { maximum := 0, length := 0, buffer := none, release := false }

/-- `to_response` (dds_idl_wrapper.h). -/
def to_response (resp : llama_ChatCompletionResponse) : ChatCompletionResponse where
  request_id := resp.request_id.getD ""
  model := resp.model.getD ""
  content := resp.content.getD ""
  finish_reason := resp.finish_reason
  is_final := resp.is_final
  prompt_tokens := resp.prompt_tokens
  completion_tokens := resp.completion_tokens

/-- `to_llama_response` (dds_idl_wrapper.h): `finish_reason` stays null when
absent, all other strings are duplicated. -/
def to_llama_response (resp : ChatCompletionResponse) : llama_ChatCompletionResponse where
  request_id := some resp.request_id
  model := some resp.model
  content := some resp.content
  finish_reason := resp.finish_reason
  is_final := resp.is_final
  prompt_tokens := resp.prompt_tokens
  completion_tokens := resp.completion_tokens

/-! ## CDR free helpers (`dds_idl_wrapper.h`): allocation-level model

The free helpers are about heap effects, so here the wire records are viewed
at the pointer level: each `char*` / `_buffer` field is an optional heap
address (`none` = null).  The heap tracks the set of live allocations; calling
`free` on an address that is not live (double free / invalid free) corrupts
the heap. -/

abbrev Addr := Nat

/-- Allocator state: the set of live blocks, and whether an invalid `free`
(double free) has occurred. -/
structure Heap where
  live : List Addr
  corrupt : Bool := false
deriving DecidableEq, Repr

/-- `free(a)`: releasing a live block removes it; releasing anything else is
undefined behaviour, modelled as corruption. -/
def Heap.free (h : Heap) (a : Addr) : Heap :=
  if a ∈ h.live then { h with live := h.live.erase a } else { h with corrupt := true }

/-- `if (p) free(p);` — the null check guarding every free in the helpers. -/
def Heap.freeOpt (h : Heap) (p : Option Addr) : Heap :=
  match p with
  | some a => h.free a
  | none => h

/-- Pointer skeleton of a wire `llama_ChatMessage`. -/
structure llama_ChatMessagePtrs where
  role : Option Addr
  content : Option Addr
deriving DecidableEq, Repr

/-- Pointer skeleton of a wire `llama_ChatCompletionRequest`: the string
pointers, the three sequence buffers, and the element pointers the code
iterates over (`_buffer[i]` for `i < _length`). -/
structure llama_ChatCompletionRequestPtrs where
  request_id : Option Addr
  model : Option Addr
  messages_buffer : Option Addr
  messages_elems : List llama_ChatMessagePtrs
  top_p_buffer : Option Addr
  n_buffer : Option Addr
  stop_buffer : Option Addr
  stop_elems : List (Option Addr)
deriving DecidableEq, Repr

/-- Pointer skeleton of a wire `llama_ChatCompletionResponse`. -/
structure llama_ChatCompletionResponsePtrs where
  request_id : Option Addr
  model : Option Addr
  content : Option Addr
  finish_reason : Option Addr
deriving DecidableEq, Repr

/-- `free_llama_request` (dds_idl_wrapper.h): frees `request_id` and `model`
if non-null; if the messages buffer is non-null, frees each message's `role`
and `content` if non-null and then the buffer; frees the `top_p` and `n`
buffers if non-null; if the stop buffer is non-null, frees each non-null
element and then the buffer.  The record's pointer fields are not modified. -/
def free_llama_request (req : llama_ChatCompletionRequestPtrs) (h : Heap) : Heap :=
  let h := h.freeOpt req.request_id
  let h := h.freeOpt req.model
  let h :=
    match req.messages_buffer with
    | none => h
    | some b =>
      (req.messages_elems.foldl
        (fun (acc : Heap) (m : llama_ChatMessagePtrs) =>
          (acc.freeOpt m.role).freeOpt m.content) h).free b
  let h := h.freeOpt req.top_p_buffer
  let h := h.freeOpt req.n_buffer
  match req.stop_buffer with
  | none => h
  | some b => (req.stop_elems.foldl Heap.freeOpt h).free b

/-- `free_llama_response` (dds_idl_wrapper.h): frees the four string pointers,
each only if non-null.  The record's pointer fields are not modified. -/
def free_llama_response (resp : llama_ChatCompletionResponsePtrs) (h : Heap) : Heap :=
  (((h.freeOpt resp.request_id).freeOpt resp.model).freeOpt resp.content).freeOpt
    resp.finish_reason

/-- The all-null (fully zeroed / partially-constructed) wire request. -/
def nullRequestPtrs : llama_ChatCompletionRequestPtrs :=
  ⟨none, none, none, [], none, none, none, []⟩

/-- The all-null wire response. -/
def nullResponsePtrs : llama_ChatCompletionResponsePtrs :=
  ⟨none, none, none, none⟩

/-! ## UUID v4 generator (`dds_utils.h`, `generate_uuid`)

The PRNG state is the sequence of `uint32` draws the generator consumes: one
call consumes four draws `v0 v1 v2 v3` (arbitrary naturals; each byte
extraction masks with `& 0xFF`, so no upper bound is needed).  The 16 bytes
are filled little-endian from the draws, byte 6 is patched to the version-4
nibble and byte 8 to the RFC 4122 variant, and the result is printed with
`snprintf("%02x%02x%02x%02x-%02x%02x-%02x%02x-%02x%02x-%02x...")`, i.e. as
lowercase two-digit hex with hyphens after bytes 3, 5, 7 and 9. -/

/-- One lowercase hex digit, as printed by `%x` for a value below 16. -/
def hexChar (n : Nat) : Char :=
  if n < 10 then Char.ofNat (48 + n) else Char.ofNat (87 + n)

/-- `%02x` of a byte: two lowercase hex digits. -/
def hexByte (b : Nat) : List Char :=
  [hexChar (b / 16), hexChar (b % 16)]

/-- `(val >> (8*k)) & 0xFF`: byte `k` of a 32-bit draw. -/
def byteOfWord (v k : Nat) : Nat :=
  (v >>> (8 * k)) % 256

/-- The character content of `generate_uuid` for the four PRNG draws
`v0 v1 v2 v3`: bytes 0–3 come from `v0`, 4–7 from `v1`, 8–11 from `v2`,
12–15 from `v3`; byte 6 is `(b & 0x0F) | 0x40` and byte 8 is
`(b & 0x3F) | 0x80`; layout 8-4-4-4-12 with hyphens. -/
def uuidChars (v0 v1 v2 v3 : Nat) : List Char :=
  hexByte (byteOfWord v0 0) ++ hexByte (byteOfWord v0 1) ++
    hexByte (byteOfWord v0 2) ++ hexByte (byteOfWord v0 3) ++
  ['-'] ++ hexByte (byteOfWord v1 0) ++ hexByte (byteOfWord v1 1) ++
  ['-'] ++ hexByte ((byteOfWord v1 2 &&& 15) ||| 64) ++ hexByte (byteOfWord v1 3) ++
  ['-'] ++ hexByte ((byteOfWord v2 0 &&& 63) ||| 128) ++ hexByte (byteOfWord v2 1) ++
  ['-'] ++ hexByte (byteOfWord v2 2) ++ hexByte (byteOfWord v2 3) ++
    hexByte (byteOfWord v3 0) ++ hexByte (byteOfWord v3 1) ++
    hexByte (byteOfWord v3 2) ++ hexByte (byteOfWord v3 3)

/-- `llama_dds::generate_uuid` (dds_utils.h), as a function of the four PRNG
draws it consumes. -/
def generate_uuid (v0 v1 v2 v3 : Nat) : String :=
  String.mk (uuidChars v0 v1 v2 v3)

/-- Lowercase hexadecimal digit test: a decimal digit or a letter between
the characters a and f. -/
def isLowerHexDigit (c : Char) : Bool :=
  (c.isDigit) || (decide ('a' ≤ c) && decide (c ≤ 'f'))

/-! ## Transport entity lifecycle (`dds_transport.cpp`)

`DDSTransportImpl::start_server` issues a fixed sequence of `dds_create_*`
calls; the environment records the handle each call would return (negative =
failure, as tested by the source).  The state holds the impl's entity-handle
members (all zero-initialised) and thread/running flags. -/

/-- Outcomes of the seven `dds_create_*` calls made by `start_server`, in
call order. -/
structure CreateEnv where
  participant : Int
  request_topic : Int
  response_topic : Int
  status_topic : Int
  request_reader : Int
  response_writer : Int
  status_writer : Int
deriving DecidableEq, Repr

/-- `DDSTransportImpl` members: running flag, thread joinability, and the ten
`dds_entity_t` handle members (zero-initialised). -/
structure TransportState where
  running : Bool := false
  reader_joinable : Bool := false
  response_reader_joinable : Bool := false
  participant : Int := 0
  request_topic : Int := 0
  response_topic : Int := 0
  status_topic : Int := 0
  request_reader : Int := 0
  response_writer : Int := 0
  status_writer : Int := 0
  request_writer : Int := 0
  response_reader : Int := 0
  status_reader : Int := 0
deriving DecidableEq, Repr

/-- A freshly constructed transport: all handles zero, nothing running. -/
def freshTransport : TransportState := {}

/-- `DDSTransportImpl::start_server` (dds_transport.cpp): creates the
participant, the three topics, the request reader, the response writer and
the status writer in that order; each negative handle makes it return false
at once — with no cleanup on that path (only the exception path calls
`stop()`).  On success it stores the callback, sets running and spawns the
reader thread. -/
def DDSTransportImpl.start_server (env : CreateEnv) (s : TransportState) :
    Bool × TransportState :=
  let s := { s with participant := env.participant }
  if s.participant < 0 then (false, s) else
  let s := { s with request_topic := env.request_topic }
  if s.request_topic < 0 then (false, s) else
  let s := { s with response_topic := env.response_topic }
  if s.response_topic < 0 then (false, s) else
  let s := { s with status_topic := env.status_topic }
  if s.status_topic < 0 then (false, s) else
  let s := { s with request_reader := env.request_reader }
  if s.request_reader < 0 then (false, s) else
  let s := { s with response_writer := env.response_writer }
  if s.response_writer < 0 then (false, s) else
  let s := { s with status_writer := env.status_writer }
  if s.status_writer < 0 then (false, s) else
  (true, { s with running := true, reader_joinable := true })

/-- `DDSTransportImpl::stop` (dds_transport.cpp): clears the running flag,
joins the reader threads if joinable, and deletes every entity whose handle
is positive, zeroing it (non-positive handles are left as they are). -/
def DDSTransportImpl.stop (s : TransportState) : TransportState where
  running := false
  reader_joinable := false
  response_reader_joinable := false
  participant := if s.participant > 0 then 0 else s.participant
  request_topic := if s.request_topic > 0 then 0 else s.request_topic
  response_topic := if s.response_topic > 0 then 0 else s.response_topic
  status_topic := if s.status_topic > 0 then 0 else s.status_topic
  request_reader := if s.request_reader > 0 then 0 else s.request_reader
  response_writer := if s.response_writer > 0 then 0 else s.response_writer
  status_writer := if s.status_writer > 0 then 0 else s.status_writer
  request_writer := if s.request_writer > 0 then 0 else s.request_writer
  response_reader := if s.response_reader > 0 then 0 else s.response_reader
  status_reader := if s.status_reader > 0 then 0 else s.status_reader

/-! ## Bridge (`dds_bridge.cpp`)

`DDSBridge` together with its `DDSBridgeImpl`: the pending `std::map` is a
key-sorted association list, the atomic in-flight counter an `Int`, and the
observable side effects of `stop`/`handle_request` an event list. -/

/-- Observable actions of the bridge operations that matter for the shutdown
and wake-up protocol. -/
inductive StopEvent where
  | set_running_false
  | impl_set_running_false
  | notify_cv
  | join_heartbeat
  | transport_stop
deriving DecidableEq, Repr

/-- Combined `DDSBridge` + `DDSBridgeImpl` state. -/
structure DDSBridgeState where
  running : Bool := false
  initialized : Bool := false
  impl_running : Bool := false
  pending_count : Int := 0
  hb_joinable : Bool := false
  pending_requests : List (String × ChatCompletionRequest) := []
  transport : TransportState := {}
  sent_responses : List ChatCompletionResponse := []
deriving DecidableEq, Repr

/-- Insert-or-assign into the key-sorted association list: the `std::map`
semantics of `pending_requests_[request_id] = request`. -/
def mapInsert (k : String) (v : ChatCompletionRequest) :
    List (String × ChatCompletionRequest) → List (String × ChatCompletionRequest)
  | [] => [(k, v)]
  | (q, w) :: rest =>
    if k < q then (k, v) :: (q, w) :: rest
    else if k = q then (k, v) :: rest
    else (q, w) :: mapInsert k v rest

/-- `DDSBridge::handle_request` (dds_bridge.cpp): stores the request under
its id (overwriting any entry with the same id), increments the in-flight
counter (`inc_pending`), and notifies the condition variable. -/
def DDSBridge.handle_request (s : DDSBridgeState) (req : ChatCompletionRequest) :
    DDSBridgeState × List StopEvent :=
  ({ s with
      pending_requests := mapInsert req.request_id req s.pending_requests
      pending_count := s.pending_count + 1 },
   [StopEvent.notify_cv])

/-- `DDSBridge::pop_pending_request` (dds_bridge.cpp): removes and returns
`pending_requests_.begin()` — the entry with the smallest key — or returns
nothing when the map is empty. -/
def DDSBridge.pop_pending_request (s : DDSBridgeState) :
    Option ChatCompletionRequest × DDSBridgeState :=
  match s.pending_requests with
  | [] => (none, s)
  | (_, v) :: rest => (some v, { s with pending_requests := rest })

/-- `DDSBridgeImpl::dec_pending` (dds_bridge.cpp): decrements the in-flight
counter only while it is positive. -/
def dec_pending (c : Int) : Int :=
  if c > 0 then c - 1 else c

/-- `DDSBridge::send_response` (dds_bridge.cpp): unconditionally calls
`dec_pending` and then forwards the response to the transport — for every
response, final or not. -/
def DDSBridge.send_response (s : DDSBridgeState) (resp : ChatCompletionResponse) :
    DDSBridgeState :=
  { s with
      pending_count := dec_pending s.pending_count
      sent_responses := s.sent_responses ++ [resp] }

/-- `DDSBridge::stop` (dds_bridge.cpp): sets the facade running flag to
false, then `DDSBridgeImpl::stop` sets the impl running flag to false, joins
the heartbeat worker thread if joinable, and calls
`transport_->stop_server()`.  No condition-variable notification occurs
anywhere on this path. -/
def DDSBridge.stop (s : DDSBridgeState) : DDSBridgeState × List StopEvent :=
  let s1 := { s with running := false, impl_running := false }
  let joined := s1.hb_joinable
  let s2 := { s1 with hb_joinable := false }
  let s3 := { s2 with transport := DDSTransportImpl.stop s2.transport }
  (s3,
   [StopEvent.set_running_false, StopEvent.impl_set_running_false] ++
     (if joined then [StopEvent.join_heartbeat] else []) ++
     [StopEvent.transport_stop])

/-- Enqueue a batch of requests through `handle_request`, as the transport
reader thread does on arrival. -/
def enqueueAll (reqs : List ChatCompletionRequest) (s : DDSBridgeState) :
    DDSBridgeState :=
  reqs.foldl (fun acc r => (DDSBridge.handle_request acc r).1) s

/-- The pending-map contents produced by a sequence of `handle_request`
insertions, isolated from the rest of the bridge state. -/
def foldInsert (reqs : List ChatCompletionRequest)
    (l : List (String × ChatCompletionRequest)) :
    List (String × ChatCompletionRequest) :=
  reqs.foldl (fun acc q => mapInsert q.request_id q acc) l

/-- Strict key order of the pending map (the `std::map` comparator on
`std::string`, which agrees with lexicographic order on the text). -/
def keyLt (a b : String × ChatCompletionRequest) : Prop :=
  a.1 < b.1

/-! ## Server dispatch (`tools/server/server.cpp`, `process_dds_request`)

The inference engine is external: its observable behaviour is the trace of
`recv_with_timeout` outcomes, one per receive-loop iteration, together with
the elapsed-seconds value the deadline check reads at the top of that
iteration.  Tokenization is external too and modelled by its outcome.  The
function's output is the list of DDS response samples it publishes through
`dds_bridge->send_response`, in publish order. -/

/-- Engine stop types relevant to the dispatch (`cmpl_final->stop`). -/
inductive StopType where
  | eos
  | limit
  | other
deriving DecidableEq, Repr

/-- The `switch (cmpl_final->stop)` mapping: `EOS → "stop"`,
`LIMIT → "length"`, default → `"stop"`. -/
def finishReasonOf : StopType → String
  | .eos => "stop"
  | .limit => "length"
  | .other => "stop"

/-- One result delivered by `queue_results->recv_with_timeout`, classified
exactly as the chain of `dynamic_cast`s in the source does. -/
inductive TaskResult where
  | cmplFinal (content : String) (n_prompt_tokens n_decoded : Int) (stop : StopType)
  | cmplChunk (content : String) (n_prompt_tokens n_decoded : Int) (is_progress : Bool)
  | taskError (msg : String)
  | otherResult
deriving DecidableEq, Repr

/-- One iteration of the receive loop: the elapsed seconds the deadline check
reads, and the `recv_with_timeout` outcome (`none` = 5-second timeout, no
progress). -/
structure RecvIter where
  elapsed : Nat
  result : Option TaskResult
deriving DecidableEq, Repr

/-- The receive loop's local variables (`generated_text`, token counts,
`finish_reason`, `is_final`), with their initialisation values. -/
structure DispatchState where
  generated_text : String := ""
  prompt_tokens : Int := 0
  completion_tokens : Int := 0
  finish_reason : String := "stop"
  is_final : Bool := false
deriving DecidableEq, Repr

/-- A streaming chunk sample, as built in both the partial and the
final-with-trailing-content branches: `is_final=false`, `finish_reason`
unset, token counts from the just-received result. -/
def chunkResponse (req : ChatCompletionRequest) (model_name : String)
    (c : String) (np nd : Int) : ChatCompletionResponse where
  request_id := req.request_id
  model := if req.model = "" then model_name else req.model
  content := c
  is_final := false
  prompt_tokens := np
  completion_tokens := nd

/-- One body of the receive loop after the deadline check: branch on the
result kind exactly as the source does, updating the locals and publishing
streaming chunks. -/
def dispatch_step (req : ChatCompletionRequest) (model_name : String)
    (st : DispatchState) :
    Option TaskResult → DispatchState × List ChatCompletionResponse
  | none => (st, [])
  | some (.cmplFinal c np nd stp) =>
    let st := { st with
      prompt_tokens := np, completion_tokens := nd,
      finish_reason := finishReasonOf stp }
    if req.stream then
      ({ st with generated_text := "", is_final := true },
       if c = "" then [] else [chunkResponse req model_name c np nd])
    else
      ({ st with generated_text := c, is_final := true }, [])
  | some (.cmplChunk c np nd prog) =>
    let st := { st with prompt_tokens := np, completion_tokens := nd }
    if req.stream then
      (st, if c = "" then [] else [chunkResponse req model_name c np nd])
    else
      let st := { st with generated_text := st.generated_text ++ c }
      if !prog && decide (req.max_tokens ≤ nd) then
        ({ st with finish_reason := "stop", is_final := true }, [])
      else
        (st, [])
  | some (.taskError m) =>
    ({ st with
        generated_text := "[Error: " ++ m ++ "]"
        finish_reason := "error"
        is_final := true }, [])
  | some .otherResult => (st, [])

/-- The `while (!is_final)` receive loop: stop when `is_final` was set, break
without publishing when `elapsed > timeout_secs`, otherwise run one body and
continue.  The iteration trace is finite because the deadline eventually
trips. -/
def dispatch_recv_loop (req : ChatCompletionRequest) (model_name : String)
    (timeout_secs : Nat) :
    DispatchState → List RecvIter → DispatchState × List ChatCompletionResponse
  | st, [] => (st, [])
  | st, it :: rest =>
    if st.is_final then (st, [])
    else if timeout_secs < it.elapsed then (st, [])
    else
      let p := dispatch_step req model_name st it.result
      let q := dispatch_recv_loop req model_name timeout_secs p.1 rest
      (q.1, p.2 ++ q.2)

/-- The terminal response built after the receive loop (source lines
305–314): always `is_final=true`, carrying the accumulated locals. -/
def terminal_response (req : ChatCompletionRequest) (model_name : String)
    (st : DispatchState) : ChatCompletionResponse where
  request_id := req.request_id
  model := if req.model = "" then model_name else req.model
  content := st.generated_text
  finish_reason := some st.finish_reason
  is_final := true
  prompt_tokens := st.prompt_tokens
  completion_tokens := st.completion_tokens

/-- The single error sample sent when tokenization throws. -/
def tokenize_error_response (req : ChatCompletionRequest) (model_name : String)
    (msg : String) : ChatCompletionResponse where
  request_id := req.request_id
  model := if req.model = "" then model_name else req.model
  content := "[DDS] Error: Failed to tokenize prompt: " ++ msg
  is_final := true
  finish_reason := some "error"

/-- `process_dds_request` (server.cpp): on tokenization failure publish one
terminal error sample and return; otherwise run the receive loop over the
engine trace and finish by publishing the terminal response.  The returned
list is the sequence of samples published for this request, in order. -/
def process_dds_request (req : ChatCompletionRequest) (model_name : String)
    (timeout_secs : Nat) (tokenization : Except String (List Int))
    (iters : List RecvIter) : List ChatCompletionResponse :=
  match tokenization with
  | .error msg => [tokenize_error_response req model_name msg]
  | .ok _ =>
    let p := dispatch_recv_loop req model_name timeout_secs {} iters
    p.2 ++ [terminal_response req model_name p.1]

/-- A quiet receive-loop iteration for a non-streaming request: within the
deadline, and carrying no result that terminates the loop (no final, no
error, and no token-limit-reaching complete partial). -/
def quiet_iter (timeout_secs : Nat) (max_tokens : Int) (it : RecvIter) : Bool :=
  decide (it.elapsed ≤ timeout_secs) &&
    match it.result with
    | none => true
    | some .otherResult => true
    | some (.cmplChunk _ _ nd prog) => prog || decide (nd < max_tokens)
    | some _ => false

/-- A concrete request used by the counterexample and witness theorems. -/
def demoRequest : ChatCompletionRequest where
  request_id := "req-0001"
  model := "tinyllama"
  messages := [⟨"user", "What is 2+2?"⟩]

/-- A concrete request with lexicographically small id. -/
def demoRequestA : ChatCompletionRequest where
  request_id := "aaa-0002"
  model := "tinyllama"
  messages := [⟨"user", "second enqueued"⟩]

/-- A concrete request with lexicographically large id. -/
def demoRequestB : ChatCompletionRequest where
  request_id := "bbb-0001"
  model := "tinyllama"
  messages := [⟨"user", "first enqueued"⟩]

/-- A bridge in the fully started state: both running flags set, heartbeat
thread joinable, transport running with all server-side entities live. -/
def runningBridge : DDSBridgeState where
  running := true
  initialized := true
  impl_running := true
  pending_count := 0
  hb_joinable := true
  transport :=
    { running := true
      reader_joinable := true
      participant := 1
      request_topic := 2
      response_topic := 3
      status_topic := 4
      request_reader := 5
      response_writer := 6
      status_writer := 7 }

/-- A creation environment in which the participant is created (handle 1) but
the request-topic creation fails (negative handle), all later calls
nominally succeeding. -/
def failEnv : CreateEnv where
  participant := 1
  request_topic := -1
  response_topic := 1
  status_topic := 1
  request_reader := 1
  response_writer := 1
  status_writer := 1

/-! # Theorems -/

/-! ## Round-trip lemmas for the request conversion -/

theorem take_length_map {α β : Type} (f : α → β) (l : List α) :
    (l.map f).take l.length = l.map f := by
  rw [← List.length_map l f]
  exact List.take_length _

theorem msg_roundtrip_comp :
    to_chat_message ∘ to_llama_chat_message = id := by
  funext m
  cases m
  rfl

theorem map_msg_roundtrip (msgs : List ChatMessage) :
    (msgs.map to_llama_chat_message).map to_chat_message = msgs := by
  rw [List.map_map, msg_roundtrip_comp, List.map_id]

theorem getD_comp_some :
    ((fun s => s.getD "") ∘ (some : String → Option String)) = id := by
  funext s
  rfl

theorem map_some_getD (l : List String) :
    (l.map some).map (fun s => s.getD "") = l := by
  rw [List.map_map, getD_comp_some, List.map_id]

/-- C10: the wire round trip restores the native request, except that a
present-but-empty stop list collapses to an absent one. -/
theorem request_wire_roundtrip (r : ChatCompletionRequest) :
    to_request (to_llama_request r) =
      if r.stop = some ([] : List String) then { r with stop := none } else r := by
  rcases r with ⟨rid, mdl, msgs, temp, mt, strm, tp, n, stp⟩
  rcases tp with _ | v <;> rcases n with _ | k <;> rcases stp with _ | (_ | ⟨s0, l⟩) <;>
    simp [to_request, to_llama_request, WireSeq.elems, take_length_map,
      msg_roundtrip_comp, getD_comp_some]

/-- C7 counterexample: the free helpers are not idempotent.  For a record
holding a single live string (`request_id` at address 1), calling the helper
twice double-frees that string (the pointer field is not nulled by the first
call), which is not the same effect as calling it once.  Shown for both
`free_llama_request` and `free_llama_response`. -/
theorem free_helpers_not_idempotent :
    free_llama_request ⟨some 1, none, none, [], none, none, none, []⟩
        (free_llama_request ⟨some 1, none, none, [], none, none, none, []⟩ ⟨[1], false⟩) ≠
      free_llama_request ⟨some 1, none, none, [], none, none, none, []⟩ ⟨[1], false⟩ ∧
    free_llama_response ⟨some 1, none, none, none⟩
        (free_llama_response ⟨some 1, none, none, none⟩ ⟨[1], false⟩) ≠
      free_llama_response ⟨some 1, none, none, none⟩ ⟨[1], false⟩ := by
  decide

/-- C7 (amended): the free helpers tolerate partially-constructed records —
every contained pointer is freed only if non-null, and the all-null record is
a no-op on any heap — but they are not idempotent, since the record's pointer
fields are not cleared: a second call on the same record re-frees each
non-null pointer (double free). -/
theorem free_helpers_null_tolerant_not_idempotent (h : Heap) :
    free_llama_request nullRequestPtrs h = h ∧
    free_llama_response nullResponsePtrs h = h ∧
    free_llama_request ⟨some 1, none, none, [], none, none, none, []⟩ ⟨[1], false⟩ =
      ⟨[], false⟩ ∧
    free_llama_request ⟨some 1, none, none, [], none, none, none, []⟩
        (free_llama_request ⟨some 1, none, none, [], none, none, none, []⟩ ⟨[1], false⟩) =
      ⟨[], true⟩ ∧
    free_llama_response ⟨some 1, none, none, none⟩
        (free_llama_response ⟨some 1, none, none, none⟩ ⟨[1], false⟩) =
      ⟨[], true⟩ := by
  refine ⟨rfl, rfl, by decide, by decide, by decide⟩

theorem isLowerHexDigit_hexChar : ∀ n < 16, isLowerHexDigit (hexChar n) = true := by
  decide

theorem byteOfWord_lt (v k : Nat) : byteOfWord v k < 256 :=
  Nat.mod_lt _ (by norm_num)

theorem hexByte_all_hex (b : Nat) (hb : b < 256) :
    (hexByte b).all isLowerHexDigit = true := by
  have h1 : b / 16 < 16 := by omega
  have h2 : b % 16 < 16 := Nat.mod_lt _ (by norm_num)
  simp [hexByte, isLowerHexDigit_hexChar _ h1, isLowerHexDigit_hexChar _ h2]

theorem or64_div16 : ∀ y ≤ 15, (y ||| 64) / 16 = 4 := by
  decide

theorem or64_lt : ∀ y ≤ 15, (y ||| 64) < 256 := by
  decide

theorem or128_div16 : ∀ y ≤ 63, 8 ≤ (y ||| 128) / 16 ∧ (y ||| 128) / 16 ≤ 11 := by
  decide

theorem or128_lt : ∀ y ≤ 63, (y ||| 128) < 256 := by
  decide

theorem hexChar_variant : ∀ d ≤ 11, 8 ≤ d →
    (hexChar d = '8' ∨ hexChar d = '9' ∨ hexChar d = 'a' ∨ hexChar d = 'b') := by
  decide

/-- C8: for every PRNG state (any four 32-bit draws), `generate_uuid` yields a
36-character string in hyphenated 8-4-4-4-12 lowercase-hex form whose
character at position 14 is the version nibble 4 and whose character at
position 19 is one of 8, 9, a, b (RFC 4122 variant, high bits 10). -/
theorem generate_uuid_rfc4122 (v0 v1 v2 v3 : Nat) :
    (generate_uuid v0 v1 v2 v3).length = 36 ∧
    (∃ g1 g2 g3 g4 g5 : List Char,
      uuidChars v0 v1 v2 v3 =
        g1 ++ '-' :: (g2 ++ '-' :: (g3 ++ '-' :: (g4 ++ '-' :: g5))) ∧
      g1.length = 8 ∧ g2.length = 4 ∧ g3.length = 4 ∧ g4.length = 4 ∧
      g5.length = 12 ∧
      (g1 ++ g2 ++ g3 ++ g4 ++ g5).all isLowerHexDigit = true) ∧
    (uuidChars v0 v1 v2 v3)[14]? = some '4' ∧
    (∃ c : Char, (uuidChars v0 v1 v2 v3)[19]? = some c ∧
      (c = '8' ∨ c = '9' ∨ c = 'a' ∨ c = 'b')) := by
  have h14 : (uuidChars v0 v1 v2 v3)[14]? =
      some (hexChar (((byteOfWord v1 2 &&& 15) ||| 64) / 16)) := by
    simp only [uuidChars, hexByte, List.cons_append, List.nil_append,
      List.append_assoc]
    simp [List.getElem?_cons_succ, List.getElem?_cons_zero]
  have h19 : (uuidChars v0 v1 v2 v3)[19]? =
      some (hexChar (((byteOfWord v2 0 &&& 63) ||| 128) / 16)) := by
    simp only [uuidChars, hexByte, List.cons_append, List.nil_append,
      List.append_assoc]
    simp [List.getElem?_cons_succ, List.getElem?_cons_zero]
  have hvar := or128_div16 (byteOfWord v2 0 &&& 63) Nat.and_le_right
  refine ⟨by simp [generate_uuid, uuidChars, hexByte, String.length],
    ⟨hexByte (byteOfWord v0 0) ++ hexByte (byteOfWord v0 1) ++
        hexByte (byteOfWord v0 2) ++ hexByte (byteOfWord v0 3),
      hexByte (byteOfWord v1 0) ++ hexByte (byteOfWord v1 1),
      hexByte ((byteOfWord v1 2 &&& 15) ||| 64) ++ hexByte (byteOfWord v1 3),
      hexByte ((byteOfWord v2 0 &&& 63) ||| 128) ++ hexByte (byteOfWord v2 1),
      hexByte (byteOfWord v2 2) ++ hexByte (byteOfWord v2 3) ++
        hexByte (byteOfWord v3 0) ++ hexByte (byteOfWord v3 1) ++
        hexByte (byteOfWord v3 2) ++ hexByte (byteOfWord v3 3),
      ?_, by simp [hexByte], by simp [hexByte], by simp [hexByte],
      by simp [hexByte], by simp [hexByte], ?_⟩, ?_, ?_⟩
  · simp only [uuidChars, hexByte, List.cons_append, List.nil_append,
      List.append_assoc]
  · simp [List.all_append, hexByte_all_hex, byteOfWord_lt, or64_lt, or128_lt,
      Nat.and_le_right]
  · rw [h14, or64_div16 (byteOfWord v1 2 &&& 15) Nat.and_le_right]
    rfl
  · refine ⟨hexChar (((byteOfWord v2 0 &&& 63) ||| 128) / 16), h19, ?_⟩
    exact hexChar_variant _ hvar.2 hvar.1

theorem dispatch_step_chunks (req : ChatCompletionRequest) (mn : String)
    (st : DispatchState) (res : Option TaskResult) :
    ((dispatch_step req mn st res).2).all
      (fun r => !r.is_final && (r.request_id == req.request_id)) = true := by
  rcases res with _ | (⟨c, np, nd, stp⟩ | ⟨c, np, nd, prog⟩ | m | _) <;>
    simp only [dispatch_step] <;>
    (try split_ifs) <;>
    simp [chunkResponse]

theorem dispatch_recv_loop_chunks (req : ChatCompletionRequest) (mn : String)
    (t : Nat) (iters : List RecvIter) :
    ∀ st : DispatchState,
      ((dispatch_recv_loop req mn t st iters).2).all
        (fun r => !r.is_final && (r.request_id == req.request_id)) = true := by
  induction iters with
  | nil =>
    intro st
    simp [dispatch_recv_loop]
  | cons it rest ih =>
    intro st
    simp only [dispatch_recv_loop]
    split_ifs
    · simp
    · simp
    · simp [List.all_append, dispatch_step_chunks, ih]

/-- C1: every sample published by `process_dds_request` carries the request
id of the request being processed, and exactly one of them has
`is_final = true`, namely the last one published for the session.  This
holds for every tokenization outcome and every engine result trace. -/
theorem process_dds_request_correlation (req : ChatCompletionRequest)
    (mn : String) (t : Nat) (tok : Except String (List Int))
    (iters : List RecvIter) :
    (process_dds_request req mn t tok iters).all
      (fun r => r.request_id == req.request_id) = true ∧
    (process_dds_request req mn t tok iters).countP (fun r => r.is_final) = 1 ∧
    ((process_dds_request req mn t tok iters).getLast?.map
      (fun r => r.is_final)) = some true := by
  rcases tok with msg | toks
  · refine ⟨?_, ?_, ?_⟩ <;> simp [process_dds_request, tokenize_error_response]
  · have h := dispatch_recv_loop_chunks req mn t iters {}
    rw [List.all_eq_true] at h
    refine ⟨?_, ?_, ?_⟩
    · rw [List.all_eq_true]
      intro r hr
      simp only [process_dds_request, List.mem_append, List.mem_singleton] at hr
      rcases hr with hr | hr
      · exact (Bool.and_eq_true _ _ |>.mp (h r hr)).2
      · subst hr
        simp [terminal_response]
    · simp only [process_dds_request, List.countP_append]
      have hz : (dispatch_recv_loop req mn t {} iters).2.countP
          (fun r => r.is_final) = 0 := by
        rw [List.countP_eq_zero]
        intro r hr
        have := (Bool.and_eq_true _ _ |>.mp (h r hr)).1
        simp_all
      rw [hz]
      simp [terminal_response]
    · simp only [process_dds_request]
      rw [List.getLast?_concat]
      simp [terminal_response]

/-- C4 counterexample: when the deadline elapses before any terminal result
(here: the first deadline check reads 61 s against a 60 s timeout), the
dispatch does not return without sending — it publishes exactly one sample,
a terminal with `is_final = true` and the default finish reason, so the
client does not observe a sample-less stalled session. -/
theorem dispatch_timeout_counterexample :
    process_dds_request demoRequest "m" 60 (Except.ok [1]) [⟨61, none⟩] =
      [{ request_id := "req-0001", model := "tinyllama", content := "",
         finish_reason := some "stop", is_final := true,
         prompt_tokens := 0, completion_tokens := 0 }] ∧
    process_dds_request demoRequest "m" 60 (Except.ok [1]) [⟨61, none⟩] ≠
      ([] : List ChatCompletionResponse) := by
  decide

/-- C4 (amended): when the per-request deadline elapses before a terminal
result arrives, the dispatch stops waiting but still publishes the terminal
sample built after the receive loop, with `is_final = true`; in general the
last sample published for any engine trace is a terminal. -/
theorem dispatch_timeout_emits_terminal (req : ChatCompletionRequest)
    (mn : String) (t : Nat) (toks : List Int) (iters rest : List RecvIter) :
    process_dds_request req mn t (Except.ok toks) (⟨t + 1, none⟩ :: rest) =
      [terminal_response req mn {}] ∧
    (terminal_response req mn {}).is_final = true ∧
    ((process_dds_request req mn t (Except.ok toks) iters).getLast?.map
      (fun r => r.is_final)) = some true := by
  refine ⟨?_, rfl, ?_⟩
  · simp [process_dds_request, dispatch_recv_loop, Nat.lt_succ_self]
  · simp only [process_dds_request]
    rw [List.getLast?_concat]
    simp [terminal_response]

/-- C3: `DDSBridge::send_response` decrements the in-flight counter for a
streaming chunk with `is_final = false` as well — evaluated at the failing
input (counter 1, non-final chunk), the counter drops to 0 instead of
remaining 1 as the claim requires. -/
theorem send_response_decrements_on_streaming_chunk :
    ({ request_id := "req-0001", content := "tok", is_final := false } :
        ChatCompletionResponse).is_final = false ∧
    (DDSBridge.send_response { pending_count := 1 }
        { request_id := "req-0001", content := "tok",
          is_final := false }).pending_count = 0 := by
  decide

/-- C6 counterexample: `DDSBridge::stop` on a fully running bridge performs
no condition-variable notification (whereas `handle_request` does notify),
refuting the claim that every `stop` call notifies the condition variable. -/
theorem bridge_stop_no_notify_counterexample :
    StopEvent.notify_cv ∉ (DDSBridge.stop runningBridge).2 ∧
    (DDSBridge.handle_request runningBridge demoRequest).2 =
      [StopEvent.notify_cv] := by
  decide

theorem stop_clears_idem (x : Int) :
    (if (if x > 0 then 0 else x) > 0 then 0 else if x > 0 then 0 else x) =
      if x > 0 then 0 else x := by
  split_ifs <;> omega

theorem DDSTransportImpl.stop_idem (t : TransportState) :
    DDSTransportImpl.stop (DDSTransportImpl.stop t) = DDSTransportImpl.stop t := by
  simp [DDSTransportImpl.stop, stop_clears_idem]

/-- C6 (amended): `DDSBridge::stop` is idempotent; every call clears the
bridge and impl running flags, joins the heartbeat thread when joinable, and
then tears down the transport, in that order — but it never notifies the
condition variable (a dispatch thread blocked in `wait_for_request` returns
via its bounded timeout instead). -/
theorem bridge_stop_idempotent_order (s : DDSBridgeState) :
    (DDSBridge.stop (DDSBridge.stop s).1).1 = (DDSBridge.stop s).1 ∧
    StopEvent.notify_cv ∉ (DDSBridge.stop s).2 ∧
    (DDSBridge.stop runningBridge).2 =
      [StopEvent.set_running_false, StopEvent.impl_set_running_false,
       StopEvent.join_heartbeat, StopEvent.transport_stop] ∧
    (DDSBridge.stop s).1.running = false ∧
    (DDSBridge.stop s).1.impl_running = false ∧
    (DDSBridge.stop s).1.hb_joinable = false ∧
    (DDSBridge.stop s).1.transport.running = false := by
  refine ⟨?_, ?_, by decide, rfl, rfl, rfl, rfl⟩
  · simp [DDSBridge.stop, DDSTransportImpl.stop_idem]
  · cases hj : s.hb_joinable <;> simp [DDSBridge.stop, hj]

/-- C2 counterexample: with a participant created successfully (handle 1) and
the request-topic creation failing, `start_server` returns false but the
transport still holds the created participant — the partial state is not
released, so the transport is not left as if it had never been started. -/
theorem start_server_no_rollback_counterexample :
    (DDSTransportImpl.start_server failEnv freshTransport).1 = false ∧
    (DDSTransportImpl.start_server failEnv freshTransport).2.participant = 1 ∧
    (DDSTransportImpl.start_server failEnv freshTransport).2 ≠ freshTransport := by
  decide

/-- C2 (amended): `start_server` returns true iff the participant, the three
topics, the request reader, the response writer and the status writer were
all created; on a creation failure it returns false immediately without
releasing the already-created entities (shown for a request-topic failure:
the participant handle survives and the transport is not running), and a
later `stop` is what deletes every live entity (all handles non-positive
afterwards). -/
theorem start_server_success_iff_no_rollback (env : CreateEnv)
    (s : TransportState) :
    ((DDSTransportImpl.start_server env freshTransport).1 = true ↔
      (0 ≤ env.participant ∧ 0 ≤ env.request_topic ∧ 0 ≤ env.response_topic ∧
       0 ≤ env.status_topic ∧ 0 ≤ env.request_reader ∧
       0 ≤ env.response_writer ∧ 0 ≤ env.status_writer)) ∧
    (0 ≤ env.participant → env.request_topic < 0 →
      (DDSTransportImpl.start_server env freshTransport).2.participant =
        env.participant ∧
      (DDSTransportImpl.start_server env freshTransport).2.running = false) ∧
    (DDSTransportImpl.stop s).participant ≤ 0 ∧
    (DDSTransportImpl.stop s).request_topic ≤ 0 ∧
    (DDSTransportImpl.stop s).response_topic ≤ 0 ∧
    (DDSTransportImpl.stop s).status_topic ≤ 0 ∧
    (DDSTransportImpl.stop s).request_reader ≤ 0 ∧
    (DDSTransportImpl.stop s).response_writer ≤ 0 ∧
    (DDSTransportImpl.stop s).status_writer ≤ 0 ∧
    (DDSTransportImpl.stop s).request_writer ≤ 0 ∧
    (DDSTransportImpl.stop s).response_reader ≤ 0 ∧
    (DDSTransportImpl.stop s).status_reader ≤ 0 := by
  refine ⟨?_, ?_, ?_, ?_, ?_, ?_, ?_, ?_, ?_, ?_, ?_, ?_⟩
  · simp only [DDSTransportImpl.start_server]
    split_ifs <;> simp <;> omega
  · intro h1 h2
    have hn : ¬ env.participant < 0 := by omega
    simp only [DDSTransportImpl.start_server]
    rw [if_neg hn, if_pos h2]
    exact ⟨rfl, rfl⟩
  all_goals
    simp only [DDSTransportImpl.stop]
  all_goals
    split_ifs <;> omega

/-- C2 witness: the amended theorem applied to the concrete failing
environment `failEnv`. -/
theorem start_server_success_iff_no_rollback_witness :
    (DDSTransportImpl.start_server failEnv freshTransport).2.participant =
      failEnv.participant ∧
    (DDSTransportImpl.start_server failEnv freshTransport).2.running = false :=
  (start_server_success_iff_no_rollback failEnv freshTransport).2.1
    (by decide) (by decide)

theorem dispatch_recv_loop_final_state (req : ChatCompletionRequest)
    (mn : String) (t : Nat) (st : DispatchState) (hf : st.is_final = true)
    (iters : List RecvIter) :
    dispatch_recv_loop req mn t st iters = (st, []) := by
  cases iters <;> simp [dispatch_recv_loop, hf]

theorem dispatch_step_quiet (req : ChatCompletionRequest) (mn : String)
    (t : Nat) (st : DispatchState) (it : RecvIter)
    (hs : req.stream = false) (hf : st.is_final = false)
    (hq : quiet_iter t req.max_tokens it = true) :
    (dispatch_step req mn st it.result).2 = [] ∧
    (dispatch_step req mn st it.result).1.is_final = false := by
  rcases it with ⟨e, res⟩
  rcases res with _ | (⟨c, np, nd, stp⟩ | ⟨c, np, nd, prog⟩ | m | _) <;>
    simp only [quiet_iter, Bool.and_eq_true] at hq
  · simp [dispatch_step, hf]
  · simp at hq
  · rcases hq with ⟨-, hq⟩
    cases prog with
    | false =>
      simp only [Bool.false_or, decide_eq_true_eq] at hq
      have : ¬ req.max_tokens ≤ nd := not_le.mpr hq
      simp [dispatch_step, hs, hf, this]
    | true =>
      simp [dispatch_step, hs, hf]
  · simp at hq
  · simp [dispatch_step, hf]

theorem dispatch_recv_loop_quiet_prefix (req : ChatCompletionRequest)
    (mn : String) (t : Nat) (hs : req.stream = false) (pre : List RecvIter) :
    ∀ st : DispatchState, st.is_final = false →
      pre.all (quiet_iter t req.max_tokens) = true →
      ∀ tail : List RecvIter, ∃ st2 : DispatchState,
        dispatch_recv_loop req mn t st (pre ++ tail) =
          dispatch_recv_loop req mn t st2 tail ∧ st2.is_final = false := by
  induction pre with
  | nil =>
    intro st hf _ tail
    exact ⟨st, rfl, hf⟩
  | cons it pre ih =>
    intro st hf hall tail
    rw [List.all_cons, Bool.and_eq_true] at hall
    obtain ⟨hit, hall⟩ := hall
    have he : ¬ t < it.elapsed := by
      have := (Bool.and_eq_true _ _ |>.mp hit).1
      simp only [decide_eq_true_eq] at this
      omega
    obtain ⟨hemp, hf2⟩ := dispatch_step_quiet req mn t st it hs hf hit
    obtain ⟨st2, heq, hf3⟩ :=
      ih (dispatch_step req mn st it.result).1 hf2 hall tail
    refine ⟨st2, ?_, hf3⟩
    simp [dispatch_recv_loop, hf, he, hemp, heq]

/-- C5: for a non-streaming request whose receive loop sees only quiet
iterations (no terminal, no error, no limit-reaching complete partial, all
within the deadline) followed by a final completion result within the
deadline, exactly one response sample is published for the session: the
terminal, with `is_final = true` and content equal to the full generated
text delivered by the final result. -/
theorem process_nonstream_single_final (req : ChatCompletionRequest)
    (mn : String) (t : Nat) (toks : List Int) (pre : List RecvIter) (e : Nat)
    (c : String) (np nd : Int) (stp : StopType) (rest : List RecvIter)
    (hs : req.stream = false)
    (hp : pre.all (quiet_iter t req.max_tokens) = true)
    (he : e ≤ t) :
    process_dds_request req mn t (Except.ok toks)
        (pre ++ ⟨e, some (.cmplFinal c np nd stp)⟩ :: rest) =
      [{ request_id := req.request_id,
         model := if req.model = "" then mn else req.model,
         content := c, finish_reason := some (finishReasonOf stp),
         is_final := true, prompt_tokens := np, completion_tokens := nd }] := by
  obtain ⟨st2, heq, hf⟩ :=
    dispatch_recv_loop_quiet_prefix req mn t hs pre {} rfl hp
      (⟨e, some (.cmplFinal c np nd stp)⟩ :: rest)
  simp only [process_dds_request, heq]
  rw [dispatch_recv_loop]
  rw [if_neg (by simp [hf]), if_neg (by simp; omega)]
  simp only [dispatch_step, hs]
  rw [dispatch_recv_loop_final_state req mn t _ rfl rest]
  simp [terminal_response]

/-- C5 witness: the theorem applied to a concrete non-streaming request, with
a quiet prefix of one empty poll and one in-progress partial, then a final
result with content "hello". -/
theorem process_nonstream_single_final_witness :
    demoRequest.stream = false ∧
    ([⟨1, none⟩, ⟨2, some (.cmplChunk "ab" 3 1 true)⟩] :
        List RecvIter).all (quiet_iter 60 demoRequest.max_tokens) = true ∧
    (3 : Nat) ≤ 60 ∧
    process_dds_request demoRequest "m" 60 (Except.ok [1])
        ([⟨1, none⟩, ⟨2, some (.cmplChunk "ab" 3 1 true)⟩] ++
          ⟨3, some (.cmplFinal "hello" 3 5 .eos)⟩ :: []) =
      [{ request_id := demoRequest.request_id,
         model := if demoRequest.model = "" then "m" else demoRequest.model,
         content := "hello", finish_reason := some (finishReasonOf .eos),
         is_final := true, prompt_tokens := 3, completion_tokens := 5 }] :=
  ⟨rfl, by decide, by decide,
    process_nonstream_single_final demoRequest "m" 60 [1]
      [⟨1, none⟩, ⟨2, some (.cmplChunk "ab" 3 1 true)⟩] 3 "hello" 3 5 .eos []
      rfl (by decide) (by decide)⟩

theorem mapInsert_comm (k1 k2 : String) (hne : k1 ≠ k2)
    (v1 v2 : ChatCompletionRequest) :
    ∀ l, mapInsert k2 v2 (mapInsert k1 v1 l) =
      mapInsert k1 v1 (mapInsert k2 v2 l) := by
  intro l
  induction l with
  | nil =>
    rcases lt_trichotomy k1 k2 with h | h | h
    · simp [mapInsert, h, lt_asymm h, hne, Ne.symm hne]
    · exact absurd h hne
    · simp [mapInsert, h, lt_asymm h, hne, Ne.symm hne]
  | cons p rest ih =>
    rcases p with ⟨q, w⟩
    rcases lt_trichotomy k1 k2 with h12 | h12 | h12
    · rcases lt_trichotomy k1 q with h1 | h1 | h1 <;>
        rcases lt_trichotomy k2 q with h2 | h2 | h2 <;>
        simp_all [mapInsert, lt_asymm, ne_of_lt, ne_of_gt, lt_trans] <;>
        exact absurd (lt_trans h2 h1) (lt_asymm h12)
    · exact absurd h12 hne
    · rcases lt_trichotomy k1 q with h1 | h1 | h1 <;>
        rcases lt_trichotomy k2 q with h2 | h2 | h2 <;>
        simp_all [mapInsert, lt_asymm, ne_of_lt, ne_of_gt, lt_trans] <;>
        exact absurd (lt_trans h1 h2) (lt_asymm h12)

theorem mapInsert_mem_or (k : String) (v : ChatCompletionRequest) :
    ∀ l b, b ∈ mapInsert k v l → b = (k, v) ∨ b ∈ l := by
  intro l
  induction l with
  | nil => simp [mapInsert]
  | cons p rest ih =>
    rcases p with ⟨q, w⟩
    intro b hb
    simp only [mapInsert] at hb
    split_ifs at hb with h1 h2 <;> simp only [List.mem_cons] at hb
    · rcases hb with hb | hb | hb
      · exact Or.inl hb
      · exact Or.inr (by simp [hb])
      · exact Or.inr (List.mem_cons_of_mem _ hb)
    · rcases hb with hb | hb
      · exact Or.inl hb
      · exact Or.inr (List.mem_cons_of_mem _ hb)
    · rcases hb with hb | hb
      · exact Or.inr (by simp [hb])
      · rcases ih b hb with hc | hc
        · exact Or.inl hc
        · exact Or.inr (List.mem_cons_of_mem _ hc)

theorem mapInsert_pairwise (k : String) (v : ChatCompletionRequest) :
    ∀ l, l.Pairwise keyLt → (mapInsert k v l).Pairwise keyLt := by
  intro l
  induction l with
  | nil => intro _; simp [mapInsert, List.pairwise_cons]
  | cons p rest ih =>
    rcases p with ⟨q, w⟩
    intro hpw
    rw [List.pairwise_cons] at hpw
    obtain ⟨hq, hrest⟩ := hpw
    simp only [mapInsert]
    split_ifs with h1 h2
    · rw [List.pairwise_cons]
      refine ⟨?_, ?_⟩
      · intro b hb
        rcases List.mem_cons.mp hb with hb | hb
        · subst hb; exact h1
        · exact lt_trans h1 (hq b hb)
      · rw [List.pairwise_cons]
        exact ⟨hq, hrest⟩
    · rw [List.pairwise_cons]
      subst h2
      exact ⟨hq, hrest⟩
    · rw [List.pairwise_cons]
      refine ⟨?_, ih hrest⟩
      intro b hb
      rcases mapInsert_mem_or k v rest b hb with hb | hb
      · subst hb
        rcases lt_trichotomy k q with hc | hc | hc
        · exact absurd hc h1
        · exact absurd hc h2
        · exact hc
      · exact hq b hb

theorem mapInsert_self_mem (k : String) (v : ChatCompletionRequest) :
    ∀ l, (k, v) ∈ mapInsert k v l := by
  intro l
  induction l with
  | nil => simp [mapInsert]
  | cons p rest ih =>
    rcases p with ⟨q, w⟩
    simp only [mapInsert]
    split_ifs with h1 h2
    · exact List.mem_cons_self _ _
    · exact List.mem_cons_self _ _
    · exact List.mem_cons_of_mem _ ih

theorem mapInsert_keys_mono (k : String) (v : ChatCompletionRequest)
    (a : String) :
    ∀ l, a ∈ l.map Prod.fst → a ∈ (mapInsert k v l).map Prod.fst := by
  intro l
  induction l with
  | nil => simp
  | cons p rest ih =>
    rcases p with ⟨q, w⟩
    intro ha
    simp only [List.map_cons, List.mem_cons] at ha
    simp only [mapInsert]
    split_ifs with h1 h2
    · rcases ha with ha | ha <;> simp [ha]
    · subst h2
      rcases ha with ha | ha <;> simp [ha]
    · rcases ha with ha | ha
      · simp [ha]
      · simp only [List.map_cons, List.mem_cons]
        exact Or.inr (ih ha)

theorem foldInsert_pairwise (reqs : List ChatCompletionRequest) :
    ∀ l, l.Pairwise keyLt → (foldInsert reqs l).Pairwise keyLt := by
  induction reqs with
  | nil => intro l h; exact h
  | cons r reqs ih =>
    intro l h
    exact ih _ (mapInsert_pairwise _ _ _ h)

theorem foldInsert_keys_mono (reqs : List ChatCompletionRequest) (a : String) :
    ∀ l, a ∈ l.map Prod.fst → a ∈ (foldInsert reqs l).map Prod.fst := by
  induction reqs with
  | nil => intro l h; exact h
  | cons r reqs ih =>
    intro l h
    exact ih _ (mapInsert_keys_mono _ _ _ _ h)

theorem foldInsert_mem_keys (reqs : List ChatCompletionRequest) :
    ∀ l, ∀ q ∈ reqs, q.request_id ∈ (foldInsert reqs l).map Prod.fst := by
  induction reqs with
  | nil => intro l q hq; exact absurd hq (List.not_mem_nil _)
  | cons r reqs ih =>
    intro l q hq
    rcases List.mem_cons.mp hq with hq | hq
    · subst hq
      refine foldInsert_keys_mono reqs _ _ ?_
      exact List.mem_map_of_mem Prod.fst (mapInsert_self_mem q.request_id q l)
    · exact ih _ q hq

theorem mapInsert_consistent (v : ChatCompletionRequest) :
    ∀ l, (∀ p ∈ l, p.1 = p.2.request_id) →
      ∀ p ∈ mapInsert v.request_id v l, p.1 = p.2.request_id := by
  intro l hl p hp
  rcases mapInsert_mem_or v.request_id v l p hp with h | h
  · subst h; rfl
  · exact hl p h

theorem foldInsert_consistent (reqs : List ChatCompletionRequest) :
    ∀ l, (∀ p ∈ l, p.1 = p.2.request_id) →
      ∀ p ∈ foldInsert reqs l, p.1 = p.2.request_id := by
  induction reqs with
  | nil => intro l h; exact h
  | cons r reqs ih =>
    intro l h
    exact ih _ (mapInsert_consistent r l h)

theorem pairwise_head_min (p : String × ChatCompletionRequest)
    (l : List (String × ChatCompletionRequest))
    (h : (p :: l).Pairwise keyLt) :
    ∀ a ∈ (p :: l).map Prod.fst, p.1 ≤ a := by
  rw [List.pairwise_cons] at h
  intro a ha
  simp only [List.map_cons, List.mem_cons] at ha
  rcases ha with ha | ha
  · exact le_of_eq ha.symm
  · obtain ⟨b, hb, rfl⟩ := List.mem_map.mp ha
    exact le_of_lt (h.1 b hb)

theorem enqueueAll_pending (reqs : List ChatCompletionRequest) :
    ∀ s : DDSBridgeState,
      (enqueueAll reqs s).pending_requests = foldInsert reqs s.pending_requests := by
  induction reqs with
  | nil => intro s; rfl
  | cons r reqs ih =>
    intro s
    show (enqueueAll reqs (DDSBridge.handle_request s r).1).pending_requests = _
    rw [ih]
    rfl

theorem pop_spec (s : DDSBridgeState) (p : String × ChatCompletionRequest)
    (l1 : List (String × ChatCompletionRequest))
    (h : s.pending_requests = p :: l1) :
    DDSBridge.pop_pending_request s =
      (some p.2, { s with pending_requests := l1 }) := by
  rcases p with ⟨k, v⟩
  simp [DDSBridge.pop_pending_request, h]

/-- C9: when several requests are pending, `pop_pending_request` removes and
returns the one whose request id is lexicographically smallest (the
`std::map` key order), not the earliest-enqueued one: enqueueing two
requests with distinct ids in either order yields the same bridge state, and
in the concrete two-request run the later-enqueued, smaller-id request is
popped first. -/
theorem pop_pending_request_smallest (r : ChatCompletionRequest)
    (rs : List ChatCompletionRequest) (r1 r2 : ChatCompletionRequest)
    (s : DDSBridgeState) :
    (∃ out s2,
      DDSBridge.pop_pending_request (enqueueAll (r :: rs) {}) = (some out, s2) ∧
      ((r :: rs).all fun q => decide (out.request_id ≤ q.request_id)) = true) ∧
    (r1.request_id = r2.request_id ∨
      (DDSBridge.handle_request (DDSBridge.handle_request s r1).1 r2).1 =
        (DDSBridge.handle_request (DDSBridge.handle_request s r2).1 r1).1) ∧
    (DDSBridge.pop_pending_request
        (enqueueAll [demoRequestB, demoRequestA] {})).1 = some demoRequestA := by
  have hab : ("aaa-0002" : String) < "bbb-0001" := by
    rw [String.lt_iff_toList_lt]
    decide
  refine ⟨?_, ?_, ?_⟩
  case refine_3 =>
    simp [enqueueAll, DDSBridge.handle_request, mapInsert, demoRequestA,
      demoRequestB, DDSBridge.pop_pending_request, hab]
  · have hpend : (enqueueAll (r :: rs) {}).pending_requests =
        foldInsert (r :: rs) [] := enqueueAll_pending _ {}
    have hpw : (foldInsert (r :: rs) []).Pairwise keyLt :=
      foldInsert_pairwise _ [] List.Pairwise.nil
    have hcons := foldInsert_consistent (r :: rs) []
      (fun p hp => absurd hp (List.not_mem_nil _))
    have hkeys := foldInsert_mem_keys (r :: rs) []
    cases hfi : foldInsert (r :: rs) [] with
    | nil =>
      exfalso
      have hm := hkeys r (List.mem_cons_self _ _)
      rw [hfi] at hm
      exact absurd hm (by simp)
    | cons p l1 =>
      have hpop := pop_spec (enqueueAll (r :: rs) {}) p l1 (by rw [hpend, hfi])
      refine ⟨p.2, _, hpop, ?_⟩
      rw [List.all_eq_true]
      intro q hq
      rw [decide_eq_true_eq]
      have hq2 : q.request_id ∈ (foldInsert (r :: rs) []).map Prod.fst :=
        hkeys q hq
      rw [hfi] at hq2 hpw hcons
      have hmin := pairwise_head_min p l1 hpw q.request_id hq2
      have hc := hcons p (List.mem_cons_self _ _)
      rw [hc] at hmin
      exact hmin
  · by_cases h : r1.request_id = r2.request_id
    · exact Or.inl h
    · refine Or.inr ?_
      have hcomm := mapInsert_comm r1.request_id r2.request_id h r1 r2
        s.pending_requests
      simp [DDSBridge.handle_request, hcomm]

end LlamaDDS
